import Mathlib

/-!
Shallow embedding of the core of the Solana-CLI repository
(`src/services/cache-service.ts`, `src/services/rpc-service.ts`,
`src/services/program-service.ts`) and proofs about the claims of its
specification.

Modelling conventions:
* Time values (`Date.now()` results, epoch milliseconds) are `Nat`;
  JavaScript's `now - t` never goes negative on a monotone clock, matching
  truncated `Nat` subtraction.
* The remote RPC capability (`@solana/web3.js` `Connection`) is a black box;
  it is modelled as an environment of total functions returning
  `Except String _`, where `Except.error` models a thrown exception.
* Filesystem writes performed by the cache (`saveCache`) are modelled as
  succeeding; the persisted document is the `file` field of `CacheState`.
* `JSON.parse` is external; it is passed in as a parameter
  `parse : String → Option _` where `none` models a parse exception.
-/

namespace SolanaCLI

/-- Boolean substring test used to model JavaScript `String.prototype.includes`. -/
def charsContain (needle : List Char) : List Char → Bool
  | [] => needle.isEmpty
  | c :: rest => needle.isPrefixOf (c :: rest) || charsContain needle rest

/-- `strIncludes hay needle` models JavaScript `hay.includes(needle)`. -/
def strIncludes (hay needle : String) : Bool :=
  charsContain needle.toList hay.toList

/-- JavaScript truthiness of an optional string: `undefined` and `""` are falsy. -/
def jsTruthy : Option String → Bool
  | none => false
  | some s => !(s == "")

/-- `String.prototype.trim`: strip leading and trailing whitespace. -/
def jsTrim (s : String) : String :=
  ⟨((s.data.dropWhile Char.isWhitespace).reverse.dropWhile Char.isWhitespace).reverse⟩

/-- Insert `x` after every element `y` with `le y x` — the insertion step of a
stable ascending sort. -/
def insertLe {α : Type} (le : α → α → Bool) (x : α) : List α → List α
  | [] => [x]
  | y :: ys => if le y x then y :: insertLe le x ys else x :: y :: ys

/-- Stable ascending sort, modelling `Array.prototype.sort` with a numeric
comparator `(a, b) => key(a) - key(b)` (ECMAScript sort is stable): `le a b`
is `key(a) ≤ key(b)`. -/
def jsSort {α : Type} (le : α → α → Bool) (l : List α) : List α :=
  l.foldl (fun acc x => insertLe le x acc) []

/-! ## Cache Store (`src/services/cache-service.ts`, file `unnamed/part_002`) -/

/-- `CacheEntry` from cache-service.ts. `isProgramData` and `programDataAccount`
are optional fields of the TypeScript interface. -/
structure CacheEntry where
  programId : String
  deploymentSignature : String
  deploymentSlot : Nat
  deploymentTimestamp : Nat
  lastChecked : Nat
  isProgramData : Option Bool
  programDataAccount : Option String
deriving DecidableEq, Repr

/-- `this.cacheValidityPeriod = 24 * 60 * 60 * 1000` (24 hours, milliseconds). -/
def cacheValidityPeriod : Nat := 24 * 60 * 60 * 1000

/-- State of a `CacheService` instance: `mem` is the in-memory `Map` (an
insertion-ordered association list, as a JavaScript `Map` is), `file` is the
content of the persisted document `program-deployments.json` as last written
by `saveCache` (`none` = the file holds no document written by us). -/
structure CacheState where
  mem : List (String × CacheEntry)
  file : Option (List (String × CacheEntry))
deriving DecidableEq, Repr

/-- JavaScript `Map.prototype.get`. -/
def mapGet (m : List (String × CacheEntry)) (k : String) : Option CacheEntry :=
  match m with
  | [] => none
  | (k', v) :: rest => if k' = k then some v else mapGet rest k

/-- JavaScript `Map.prototype.set`: replaces in place, else appends. -/
def mapSet (m : List (String × CacheEntry)) (k : String) (v : CacheEntry) :
    List (String × CacheEntry) :=
  match m with
  | [] => [(k, v)]
  | (k', v') :: rest =>
    if k' = k then (k, v) :: rest else (k', v') :: mapSet rest k v

/-- JavaScript `Map.prototype.delete`. -/
def mapDelete (m : List (String × CacheEntry)) (k : String) :
    List (String × CacheEntry) :=
  m.filter (fun p => !(p.1 == k))

/-- `loadCache` of cache-service.ts: read the persisted document if present,
`JSON.parse` it; any exception is caught and the cache falls back to empty.
`fileContent` is the raw file content (`none` = file absent), `parse` models
`JSON.parse` + `Object.entries` (`none` = parse exception). -/
def loadCache (parse : String → Option (List (String × CacheEntry)))
    (fileContent : Option String) : List (String × CacheEntry) :=
  match fileContent with
  | none => []
  | some data =>
    match parse data with
    | some entries => entries
    | none => []

/-- The `CacheService` constructor: build the in-memory map via `loadCache`.
Construction is total — no exception escapes `loadCache`'s catch. -/
def mkCacheService (parse : String → Option (List (String × CacheEntry)))
    (fileContent : Option String) : CacheState :=
  { mem := loadCache parse fileContent, file := none }

/-- `saveCache`: persist the in-memory map (write modelled as succeeding). -/
def saveCache (s : CacheState) : CacheState :=
  { s with file := some s.mem }

/-- `getCachedDeployment(programId)`: lookup; on a hit older than
`cacheValidityPeriod` the entry is deleted and the cache saved, and the call
returns `null`. Returns the looked-up value and the updated state. -/
def getCachedDeployment (now : Nat) (s : CacheState) (programId : String) :
    Option CacheEntry × CacheState :=
  match mapGet s.mem programId with
  | none => (none, s)
  | some entry =>
    if now - entry.lastChecked > cacheValidityPeriod then
      (none, saveCache { s with mem := mapDelete s.mem programId })
    else
      (some entry, s)

/-- `cacheDeployment(...)`: build an entry with `lastChecked = now`, store it,
persist. -/
def cacheDeployment (now : Nat) (s : CacheState) (programId : String)
    (deploymentSignature : String) (deploymentSlot : Nat)
    (deploymentTimestamp : Nat) (isProgramData : Bool)
    (programDataAccount : Option String) : CacheState :=
  let entry : CacheEntry :=
    { programId := programId
      deploymentSignature := deploymentSignature
      deploymentSlot := deploymentSlot
      deploymentTimestamp := deploymentTimestamp
      lastChecked := now
      isProgramData := some isProgramData
      programDataAccount := programDataAccount }
  saveCache { s with mem := mapSet s.mem programId entry }

/-- `clearCache()`: empty the map and persist; then the backing file is
removed, leaving no document of ours on disk. -/
def clearCache (_s : CacheState) : CacheState :=
  { mem := [], file := none }

/-- Result shape of `getCacheStats()`. -/
structure CacheStats where
  total : Nat
  valid : Nat
  expired : Nat
deriving DecidableEq, Repr

/-- `getCacheStats()`: read-only counts of valid / expired entries. -/
def getCacheStats (now : Nat) (s : CacheState) : CacheStats :=
  { total := s.mem.length
    valid := (s.mem.filter (fun p => now - p.2.lastChecked ≤ cacheValidityPeriod)).length
    expired := (s.mem.filter (fun p => !(now - p.2.lastChecked ≤ cacheValidityPeriod))).length }

/-! ## Endpoint Manager (`src/services/rpc-service.ts`) -/

/-- `RpcEndpoint` from rpc-service.ts. -/
structure RpcEndpoint where
  url : String
  name : String
  priority : Nat
  isHealthy : Bool
  lastHealthCheck : Nat
deriving DecidableEq, Repr

/-- `this.healthCheckInterval = 5 * 60 * 1000` (5 minutes, milliseconds). -/
def healthCheckInterval : Nat := 5 * 60 * 1000

/-- State of an `RpcService` instance. -/
structure RpcState where
  endpoints : List RpcEndpoint
  currentEndpointIndex : Nat
deriving DecidableEq, Repr

/-- The error message thrown by both selection policies when every endpoint
was tried and none is healthy. -/
def noHealthyEndpointsMsg : String := "No healthy RPC endpoints available"

/-- The constructor's error message when `MAIN_RPC_URL` is unset. -/
def missingPrimaryMsg : String := "MAIN_RPC_URL environment variable is not set"

/-- The backup-endpoint loop of the `RpcService` constructor
(`backupUrls.forEach(...)`): skip blank urls, name from `backupNames[index]`
with default `Backup ${index+1}`, priority `index + 2`. `index` is the
position in the original `backupUrls` array. -/
def mkBackups (backupUrls backupNames : List String) (index : Nat) :
    List RpcEndpoint :=
  match backupUrls with
  | [] => []
  | url :: rest =>
    let tail := mkBackups rest backupNames (index + 1)
    if jsTrim url = "" then tail
    else
      let nm :=
        match backupNames[index]? with
        | some n => if jsTrim n = "" then "Backup " ++ toString (index + 1) else jsTrim n
        | none => "Backup " ++ toString (index + 1)
      { url := jsTrim url, name := nm, priority := index + 2,
        isHealthy := true, lastHealthCheck := 0 } :: tail

/-- The `RpcService` constructor: mandatory primary endpoint (priority 1),
optional backups (priority `index + 2`), then sort ascending by priority
(JavaScript `Array.prototype.sort` is stable, as is `jsSort`). -/
def mkRpcService (primaryUrl : Option String)
    (backupUrls backupNames : List String) : Except String RpcState :=
  match primaryUrl with
  | none => .error missingPrimaryMsg
  | some p =>
    let eps : List RpcEndpoint :=
      { url := p, name := "Primary", priority := 1,
        isHealthy := true, lastHealthCheck := 0 } :: mkBackups backupUrls backupNames 0
    .ok { endpoints := jsSort (fun a b => a.priority ≤ b.priority) eps,
          currentEndpointIndex := 0 }

/-- The probe environment: `connection.getSlot()` per endpoint url.
`Except.error` models a thrown exception. -/
structure ProbeEnv where
  getSlot : String → Except String Int

/-- `checkEndpointHealth`: probe `getSlot`; a throw or a non-positive slot
counts as unhealthy. -/
def checkEndpointHealth (env : ProbeEnv) (endpoint : RpcEndpoint) : Bool :=
  match env.getSlot endpoint.url with
  | .error _ => false
  | .ok slot => slot > 0

/-- `updateEndpointHealth`: re-probe only when the last check is older than
`healthCheckInterval`; otherwise trust the stored health value. -/
def updateEndpointHealth (env : ProbeEnv) (now : Nat) (e : RpcEndpoint) :
    RpcEndpoint :=
  if now - e.lastHealthCheck > healthCheckInterval then
    { e with isHealthy := checkEndpointHealth env e, lastHealthCheck := now }
  else e

/-- Loop body of `getHealthyConnection`: scan endpoints front to back
(ascending priority), updating health as it goes; return the first healthy
endpoint's url. The returned list carries the health mutations. -/
def ghcScan (env : ProbeEnv) (now : Nat) :
    List RpcEndpoint → Option String × List RpcEndpoint
  | [] => (none, [])
  | e :: rest =>
    let e' := updateEndpointHealth env now e
    if e'.isHealthy then (some e'.url, e' :: rest)
    else
      let (r, rest') := ghcScan env now rest
      (r, e' :: rest')

/-- `getHealthyConnection`: priority-order policy. The `Except.error` result
models the thrown `Error('No healthy RPC endpoints available')`; the state
(with its health mutations) persists either way. -/
def getHealthyConnection (env : ProbeEnv) (now : Nat) (s : RpcState) :
    Except String String × RpcState :=
  match ghcScan env now s.endpoints with
  | (some url, eps) => (.ok url, { s with endpoints := eps })
  | (none, eps) => (.error noHealthyEndpointsMsg, { s with endpoints := eps })

/-- One iteration body of the `getNextHealthyConnection` loop: examine the
endpoint at the cursor (`none` is the out-of-range access, unreachable from
constructed states), store its health update, return it if healthy with the
cursor left in place, otherwise advance the cursor modulo the endpoint count
and continue with `recur`. -/
def gnhcVisit (env : ProbeEnv) (now : Nat)
    (recur : RpcState → Except String String × RpcState) (s : RpcState) :
    Option RpcEndpoint → Except String String × RpcState
  | none => (.error noHealthyEndpointsMsg, s)
  | some e =>
    let e' := updateEndpointHealth env now e
    let eps := s.endpoints.set s.currentEndpointIndex e'
    if e'.isHealthy then
      (.ok e'.url, { s with endpoints := eps })
    else
      recur { endpoints := eps,
              currentEndpointIndex := (s.currentEndpointIndex + 1) % eps.length }

/-- Loop of `getNextHealthyConnection`: `while (tried < this.endpoints.length)`;
`fuel` is `this.endpoints.length - tried`. -/
def gnhcGo (env : ProbeEnv) (now : Nat) :
    Nat → RpcState → Except String String × RpcState
  | 0, s => (.error noHealthyEndpointsMsg, s)
  | fuel + 1, s =>
    gnhcVisit env now (gnhcGo env now fuel) s s.endpoints[s.currentEndpointIndex]?

/-- `getNextHealthyConnection`: stateful round-robin policy starting at
`currentEndpointIndex`, trying at most `endpoints.length` endpoints. -/
def getNextHealthyConnection (env : ProbeEnv) (now : Nat) (s : RpcState) :
    Except String String × RpcState :=
  gnhcGo env now s.endpoints.length s

/-! ## Deployment Detector (`src/services/program-service.ts`) -/

/-- `NATIVE_PROGRAMS` from program-service.ts. -/
def NATIVE_PROGRAMS : List String :=
  [ "TokenkegQfeZyiNwAJbNbGKPFXCWuBvf9Ss623VQ5DA"
  , "ComputeBudget111111111111111111111111111111"
  , "BPFLoader2111111111111111111111111111111111"
  , "BPFLoader1111111111111111111111111111111111"
  , "Feature111111111111111111111111111111111111"
  , "NativeLoader1111111111111111111111111111111"
  , "Sysvar1111111111111111111111111111111111111"
  , "11111111111111111111111111111111"
  , "Config1111111111111111111111111111111111111"
  , "Stake11111111111111111111111111111111111111"
  , "Vote111111111111111111111111111111111111111"
  , "AddressLookupTab1e1111111111111111111111111"
  , "BPFLoaderUpgradeab1e11111111111111111111111"
  , "Ed25519SigVerify111111111111111111111111111"
  , "KeccakSecp256k11111111111111111111111111111"
  , "Secp256r1SigVerify1111111111111111111111111" ]

/-- `BPF_LOADER_PROGRAMS` from program-service.ts. -/
def BPF_LOADER_PROGRAMS : List String :=
  [ "BPFLoader2111111111111111111111111111111111"
  , "BPFLoader1111111111111111111111111111111111"
  , "BPFLoaderUpgradeab1e11111111111111111111111" ]

/-- `isNativeProgram(programId)`. -/
def isNativeProgram (programId : String) : Bool :=
  NATIVE_PROGRAMS.contains programId

/-- `isProgramAccount(owner)`. -/
def isProgramAccount (owner : String) : Bool :=
  BPF_LOADER_PROGRAMS.contains owner

/-- `DeploymentInfo` from program-service.ts. -/
structure DeploymentInfo where
  signature : String
  slot : Nat
  timestamp : Nat
  programDataAccount : Option String := none
deriving DecidableEq, Repr

/-- Parsed account info returned by `connection.getParsedAccountInfo`:
`owner` and `(data as any).parsed?.info?.programData`. -/
structure ParsedAccount where
  owner : String
  programData : Option String
deriving DecidableEq, Repr

/-- One element of the `connection.getSignaturesForAddress` result. -/
structure SigInfo where
  signature : String
  slot : Nat
  blockTime : Option Nat
deriving DecidableEq, Repr

/-- Parsed transaction: `tx.meta?.logMessages` (the transaction itself may be
absent, and present transactions may lack log messages). -/
structure TxInfo where
  logMessages : Option (List String)
deriving DecidableEq, Repr

/-- The remote RPC capability, per connection url. `Except.error` models a
thrown exception. -/
structure ChainEnv where
  getSlot : String → Except String Int
  getParsedAccountInfo : String → String → Except String (Option ParsedAccount)
  getSignaturesForAddress : String → String → Except String (List SigInfo)
  getParsedTransaction : String → String → Except String (Option TxInfo)

/-- The probe environment induced by a chain environment. -/
def ChainEnv.probe (env : ChainEnv) : ProbeEnv := ⟨env.getSlot⟩

/-- The deployment-classification heuristic applied to one log line:
`log.includes('Deployed program') || log.includes('Deploy with ID') ||
(log.includes(programId) && log.includes('success'))`. -/
def logIsDeployment (programId log : String) : Bool :=
  strIncludes log "Deployed program" || strIncludes log "Deploy with ID" ||
  (strIncludes log programId && strIncludes log "success")

/-- `signatures.sort((a, b) => (a.slot || 0) - (b.slot || 0))`: stable
ascending sort by slot. -/
def sortSignatures (sigs : List SigInfo) : List SigInfo :=
  jsSort (fun a b => a.slot ≤ b.slot) sigs

/-- Log classification of one scanned transaction: a transaction without log
output is skipped (`cont`), one whose logs match the deployment heuristic is
returned with the signature's slot and block time. -/
def scanLogs (cont : Unit → Except String (Option DeploymentInfo))
    (sig : SigInfo) (programId : String) :
    Option (List String) → Except String (Option DeploymentInfo)
  | none => cont ()
  | some logs =>
    if logs.any (logIsDeployment programId) then
      .ok (some { signature := sig.signature, slot := sig.slot,
                  timestamp := sig.blockTime.getD 0 })
    else
      cont ()

/-- One iteration of the scan loop, applied to the fetched transaction: a
thrown fetch error propagates (to be caught by `findDeploymentTransaction`'s
catch), an absent transaction is skipped. -/
def scanVisit (cont : Unit → Except String (Option DeploymentInfo))
    (sig : SigInfo) (programId : String) :
    Except String (Option TxInfo) → Except String (Option DeploymentInfo)
  | .error e => .error e
  | .ok none => cont ()
  | .ok (some tx) => scanLogs cont sig programId tx.logMessages

/-- The `for (const sig of signatures)` loop of `findDeploymentTransaction`:
fetch each transaction in order, skip those without log output, return the
first whose logs match the deployment heuristic. -/
def scanSignatures (env : ChainEnv) (conn programId : String) :
    List SigInfo → Except String (Option DeploymentInfo)
  | [] => .ok none
  | sig :: rest =>
    scanVisit (fun _ => scanSignatures env conn programId rest) sig programId
      (env.getParsedTransaction conn sig.signature)

/-- Body of `findDeploymentTransaction` applied to the fetched signature
list: `null` on a thrown fetch, `null` on an empty list, otherwise sort
ascending by slot and scan (a scan error is caught into `null`). -/
def findFromSignatures (env : ChainEnv) (conn programId : String) :
    Except String (List SigInfo) → Option DeploymentInfo
  | .error _ => none
  | .ok signatures =>
    if signatures.length = 0 then none
    else
      match scanSignatures env conn programId (sortSignatures signatures) with
      | .error _ => none
      | .ok r => r

/-- `findDeploymentTransaction`: fetch the signature list for the target
account, return `null` if it is empty, otherwise sort ascending by slot and
scan; every exception is caught and turned into `null`. -/
def findDeploymentTransaction (env : ChainEnv) (conn targetAccount programId : String) :
    Option DeploymentInfo :=
  findFromSignatures env conn programId
    (env.getSignaturesForAddress conn targetAccount)

/-- `'Account not found'`. -/
def accountNotFoundMsg : String := "Account not found"

/-- `'Not a program account. ...'`. -/
def notAProgramAccountMsg : String :=
  "Not a program account. This appears to be a regular account or token."

/-- `'Could not find deployment transaction'` — thrown both when the target
account has no transaction history at all and when a full scan finds no
matching transaction. -/
def deploymentNotFoundMsg : String := "Could not find deployment transaction"

/-- The fallback `'Failed to get deployment information'` (unreachable in
practice: the loop always captures an error first). -/
def genericFailureMsg : String := "Failed to get deployment information"

/-- `const targetAccount = programData ? new PublicKey(programData) :
new PublicKey(programId)` — note JavaScript truthiness: an empty-string
`programData` falls back to the program's own account. -/
def resolveTarget (programId : String) (programData : Option String) : String :=
  if jsTruthy programData then programData.getD "" else programId

/-- Tail of an attempt after the history scan: `null` becomes the thrown
`'Could not find deployment transaction'`; a found deployment is cached and
returned. -/
def attemptHistory (now : Nat) (programId : String)
    (c : CacheState) (r' : RpcState) (programData : Option String) :
    Option DeploymentInfo → Except String DeploymentInfo × RpcState × CacheState
  | none => (.error deploymentNotFoundMsg, r', c)
  | some info =>
    (.ok info, r',
      cacheDeployment now c programId info.signature info.slot info.timestamp
        (jsTruthy programData) programData)

/-- Middle of an attempt, applied to the fetched account info: absent account
and non-loader owner become thrown errors, otherwise the target account is
resolved and its history scanned. -/
def attemptAccount (env : ChainEnv) (now : Nat) (programId : String)
    (c : CacheState) (r' : RpcState) (conn : String) :
    Except String (Option ParsedAccount) →
      Except String DeploymentInfo × RpcState × CacheState
  | .error e => (.error e, r', c)
  | .ok none => (.error accountNotFoundMsg, r', c)
  | .ok (some acct) =>
    if !isProgramAccount acct.owner then
      (.error notAProgramAccountMsg, r', c)
    else
      attemptHistory now programId c r' acct.programData
        (findDeploymentTransaction env conn
          (resolveTarget programId acct.programData) programId)

/-- Head of an attempt, applied to the outcome of the connection acquisition:
a thrown `'No healthy RPC endpoints available'` propagates; a connection is
used to fetch the program's account info. -/
def attemptAcquired (env : ChainEnv) (now : Nat) (programId : String)
    (c : CacheState) :
    Except String String × RpcState →
      Except String DeploymentInfo × RpcState × CacheState
  | (.error e, r') => (.error e, r', c)
  | (.ok conn, r') =>
    attemptAccount env now programId c r' conn
      (env.getParsedAccountInfo conn programId)

/-- The body of one iteration of `getDeploymentInfo`'s `try` block: acquire a
connection (round-robin policy), fetch and validate the account, resolve the
target account, scan history, and cache a successful result. Errors thrown
anywhere inside are returned as `Except.error` for the surrounding `catch`. -/
def attemptOnce (env : ChainEnv) (now : Nat) (programId : String)
    (r : RpcState) (c : CacheState) :
    Except String DeploymentInfo × RpcState × CacheState :=
  attemptAcquired env now programId c (getNextHealthyConnection env.probe now r)

/-- Result of a `getDeploymentInfo` call: the returned value (`.ok none` is
the native-program sentinel `null`), the updated service states, and the list
of error messages captured by the retry loop's `catch` (one per failed
attempt, in order — these are the `lastError` captures). -/
structure DetectResult where
  result : Except String (Option DeploymentInfo)
  rpc : RpcState
  cache : CacheState
  attemptErrors : List String
deriving Repr

/-- One step of the retry loop, applied to an attempt's outcome: a success
returns immediately; the `catch` branch records the captured error
(`lastError`) and continues with `cont`. -/
def attemptStep (cont : String → RpcState → CacheState → DetectResult) :
    Except String DeploymentInfo × RpcState × CacheState → DetectResult
  | (.ok info, r', c') =>
    { result := .ok (some info), rpc := r', cache := c', attemptErrors := [] }
  | (.error e, r', c') =>
    let out := cont e r' c'
    { out with attemptErrors := e :: out.attemptErrors }

/-- The `while (attempts < maxAttempts)` retry loop of `getDeploymentInfo`,
with `fuel = maxAttempts - attempts` and `lastError` carried along; when fuel
runs out, `throw lastError || new Error('Failed to get deployment information')`. -/
def attemptLoop (env : ChainEnv) (now : Nat) (programId : String) :
    Nat → Option String → RpcState → CacheState → DetectResult
  | 0, lastError, r, c =>
    { result := .error (lastError.getD genericFailureMsg), rpc := r, cache := c,
      attemptErrors := [] }
  | fuel + 1, _, r, c =>
    attemptStep (fun e r' c' => attemptLoop env now programId fuel (some e) r' c')
      (attemptOnce env now programId r c)

/-- `maxAttempts = 3`. -/
def maxAttempts : Nat := 3

/-- The translation of a cached record to the public result shape performed
by the cache-hit branch of `getDeploymentInfo`. -/
def translateEntry (cached : CacheEntry) : DeploymentInfo :=
  { signature := cached.deploymentSignature
    slot := cached.deploymentSlot
    timestamp := cached.deploymentTimestamp
    programDataAccount := cached.programDataAccount }

/-- `getDeploymentInfo(programId)`: native-program short-circuit, then cache
lookup, then the 3-attempt retry loop. -/
def detectAfterCache (env : ChainEnv) (now : Nat) (programId : String)
    (r : RpcState) : Option CacheEntry × CacheState → DetectResult
  | (some cached, c') =>
    { result := .ok (some (translateEntry cached)), rpc := r, cache := c',
      attemptErrors := [] }
  | (none, c') => attemptLoop env now programId maxAttempts none r c'

def getDeploymentInfo (env : ChainEnv) (now : Nat) (programId : String)
    (r : RpcState) (c : CacheState) : DetectResult :=
  if isNativeProgram programId then
    { result := .ok none, rpc := r, cache := c, attemptErrors := [] }
  else
    detectAfterCache env now programId r (getCachedDeployment now c programId)

/-! ## Concrete instances used in witnesses and counterexamples -/

/-- A concrete cache entry written at epoch-millis 0. -/
def c8Entry : CacheEntry :=
  { programId := "p", deploymentSignature := "s", deploymentSlot := 1,
    deploymentTimestamp := 2, lastChecked := 0, isProgramData := none,
    programDataAccount := none }

/-- A cache holding only `c8Entry`. -/
def c8State : CacheState := { mem := [("p", c8Entry)], file := none }

/-- A probe environment in which every endpoint answers slot 100. -/
def c10Env : ProbeEnv := ⟨fun _ => .ok 100⟩

/-- The state the `RpcService` constructor builds from a primary url `"main"`
and one backup url `"backup"` with no backup names. -/
def c10State : RpcState :=
  { endpoints :=
      [ { url := "main", name := "Primary", priority := 1,
          isHealthy := true, lastHealthCheck := 0 }
      , { url := "backup", name := "Backup 1", priority := 2,
          isHealthy := true, lastHealthCheck := 0 } ]
    currentEndpointIndex := 0 }

/-- The freshly constructed primary endpoint. -/
def c10Ep : RpcEndpoint :=
  { url := "main", name := "Primary", priority := 1,
    isHealthy := true, lastHealthCheck := 0 }

/-- A probe environment in which every `getSlot` call throws. -/
def c2Env : ProbeEnv := ⟨fun _ => .error "connection refused"⟩

/-- A probe environment in which every endpoint is healthy (slot 100). -/
def c1Env : ProbeEnv := ⟨fun _ => .ok 100⟩

/-- A fresh primary + one backup state, both optimistically healthy, as the
constructor builds it. -/
def c1State : RpcState :=
  { endpoints :=
      [ { url := "main", name := "Primary", priority := 1,
          isHealthy := true, lastHealthCheck := 0 }
      , { url := "backup", name := "Backup 1", priority := 2,
          isHealthy := true, lastHealthCheck := 0 } ]
    currentEndpointIndex := 0 }

/-- `c1State` after the first selection call at `now = 1000000`: the primary
was probed healthy and the cursor did not move. -/
def c1After : RpcState :=
  { endpoints :=
      [ { url := "main", name := "Primary", priority := 1,
          isHealthy := true, lastHealthCheck := 1000000 }
      , { url := "backup", name := "Backup 1", priority := 2,
          isHealthy := true, lastHealthCheck := 0 } ]
    currentEndpointIndex := 0 }

/-- A chain environment in which every remote call throws: any network
access would surface as an error, so results proved equal under it and under
every other environment witness the absence of network operations. -/
def c6Env : ChainEnv :=
  { getSlot := fun _ => .error "network down"
    getParsedAccountInfo := fun _ _ => .error "network down"
    getSignaturesForAddress := fun _ _ => .error "network down"
    getParsedTransaction := fun _ _ => .error "network down" }

/-- An arbitrary concrete RPC state for exercising `getDeploymentInfo`. -/
def c6Rpc : RpcState :=
  { endpoints :=
      [ { url := "main", name := "Primary", priority := 1,
          isHealthy := true, lastHealthCheck := 0 } ]
    currentEndpointIndex := 0 }

/-- A single fresh primary endpoint, url `"main"`. -/
def c3Rpc : RpcState :=
  { endpoints :=
      [ { url := "main", name := "Primary", priority := 1,
          isHealthy := true, lastHealthCheck := 0 } ]
    currentEndpointIndex := 0 }

/-- `c3Rpc` after its endpoint was probed healthy at `now = 1000000`. -/
def c3RpcAfter : RpcState :=
  { endpoints :=
      [ { url := "main", name := "Primary", priority := 1,
          isHealthy := true, lastHealthCheck := 1000000 } ]
    currentEndpointIndex := 0 }

/-- An empty cache. -/
def c3Cache : CacheState := { mem := [], file := none }

/-- A legacy (non-upgradeable) program account owned by BPFLoader2. -/
def c3Acct : ParsedAccount :=
  { owner := "BPFLoader2111111111111111111111111111111111", programData := none }

/-- A chain in which the target account's signature list is empty. -/
def c3EnvEmpty : ChainEnv :=
  { getSlot := fun _ => .ok 100
    getParsedAccountInfo := fun _ _ => .ok (some c3Acct)
    getSignaturesForAddress := fun _ _ => .ok []
    getParsedTransaction := fun _ _ => .ok none }

/-- A chain in which the target account has one transaction whose logs do not
match the deployment heuristic: a full scan finds nothing. -/
def c3EnvNoMatch : ChainEnv :=
  { getSlot := fun _ => .ok 100
    getParsedAccountInfo := fun _ _ => .ok (some c3Acct)
    getSignaturesForAddress := fun _ _ =>
      .ok [{ signature := "sigA", slot := 7, blockTime := some 42 }]
    getParsedTransaction := fun _ _ =>
      .ok (some { logMessages := some ["unrelated"] }) }

/-- A legacy program account owned by BPFLoader2 (for the scan claim). -/
def c4Acct : ParsedAccount :=
  { owner := "BPFLoader2111111111111111111111111111111111", programData := none }

/-- The claim's scenario: two transactions, logs `["unrelated"]` at slot 10
and `["Deployed program X"]` at slot 20. -/
def c4Env : ChainEnv :=
  { getSlot := fun _ => .ok 100
    getParsedAccountInfo := fun _ _ => .ok (some c4Acct)
    getSignaturesForAddress := fun _ _ =>
      .ok [ { signature := "sig1", slot := 10, blockTime := some 111 }
          , { signature := "sig2", slot := 20, blockTime := some 222 } ]
    getParsedTransaction := fun _ sg =>
      if sg = "sig1" then .ok (some { logMessages := some ["unrelated"] })
      else .ok (some { logMessages := some ["Deployed program X"] }) }

/-- A chain in which every transaction fetch returns an absent transaction. -/
def c4EnvSkip : ChainEnv :=
  { getSlot := fun _ => .ok 100
    getParsedAccountInfo := fun _ _ => .ok none
    getSignaturesForAddress := fun _ _ => .ok []
    getParsedTransaction := fun _ _ => .ok none }

/-- A chain in which every fetched transaction lacks log messages. -/
def c4EnvNoLogs : ChainEnv :=
  { getSlot := fun _ => .ok 100
    getParsedAccountInfo := fun _ _ => .ok none
    getSignaturesForAddress := fun _ _ => .ok []
    getParsedTransaction := fun _ _ => .ok (some { logMessages := none }) }

/-- A signature entry whose transaction will be skipped. -/
def c4Sig : SigInfo := { signature := "s0", slot := 1, blockTime := none }

/-- The matching transaction's signature entry: slot 20, block time 222. -/
def c4Sig2 : SigInfo := { signature := "sig2", slot := 20, blockTime := some 222 }

/-- A single fresh primary endpoint, url `"main"` (retry claim). -/
def c5Rpc : RpcState :=
  { endpoints :=
      [ { url := "main", name := "Primary", priority := 1,
          isHealthy := true, lastHealthCheck := 0 } ]
    currentEndpointIndex := 0 }

/-- `c5Rpc` after its endpoint was probed healthy at `now = 1000000`. -/
def c5RpcAfter : RpcState :=
  { endpoints :=
      [ { url := "main", name := "Primary", priority := 1,
          isHealthy := true, lastHealthCheck := 1000000 } ]
    currentEndpointIndex := 0 }

/-- An empty cache (retry claim). -/
def c5Cache : CacheState := { mem := [], file := none }

/-- An account owned by the Token program — not a loader, so not a program
account. -/
def c5AcctBad : ParsedAccount :=
  { owner := "TokenkegQfeZyiNwAJbNbGKPFXCWuBvf9Ss623VQ5DA", programData := none }

/-- A chain on which every attempt fails with "not a program account". -/
def c5Env : ChainEnv :=
  { getSlot := fun _ => .ok 100
    getParsedAccountInfo := fun _ _ => .ok (some c5AcctBad)
    getSignaturesForAddress := fun _ _ => .ok []
    getParsedTransaction := fun _ _ => .ok none }

/-- A chain on which an attempt succeeds: one matching transaction. -/
def c5EnvOk : ChainEnv :=
  { getSlot := fun _ => .ok 100
    getParsedAccountInfo := fun _ _ => .ok (some
      { owner := "BPFLoader2111111111111111111111111111111111", programData := none })
    getSignaturesForAddress := fun _ _ =>
      .ok [{ signature := "sigB", slot := 3, blockTime := some 9 }]
    getParsedTransaction := fun _ _ =>
      .ok (some { logMessages := some ["Deployed program"] }) }

/-- The deployment found on `c5EnvOk`. -/
def c5Info : DeploymentInfo := { signature := "sigB", slot := 3, timestamp := 9 }

/-- The cache record written for `c5Info` at `now = 1000000`. -/
def c5Entry : CacheEntry :=
  { programId := "Prog5", deploymentSignature := "sigB", deploymentSlot := 3,
    deploymentTimestamp := 9, lastChecked := 1000000,
    isProgramData := some false, programDataAccount := none }

/-- The cache after the successful attempt on `c5EnvOk` persisted `c5Entry`. -/
def c5CacheAfter : CacheState :=
  { mem := [("Prog5", c5Entry)], file := some [("Prog5", c5Entry)] }

/-- A fresh cache entry for the cache-hit claim: written at epoch-millis 500. -/
def c7Entry : CacheEntry :=
  { programId := "Prog7", deploymentSignature := "sig7", deploymentSlot := 77,
    deploymentTimestamp := 1600000000, lastChecked := 500,
    isProgramData := some true, programDataAccount := some "pda7" }

/-- A cache holding only `c7Entry`. -/
def c7Cache : CacheState := { mem := [("Prog7", c7Entry)], file := none }

/-- A fresh two-endpoint state (primary url `"main"`, backup url `"backup"`). -/
def c2State : RpcState :=
  { endpoints :=
      [ { url := "main", name := "Primary", priority := 1,
          isHealthy := true, lastHealthCheck := 0 }
      , { url := "backup", name := "Backup 1", priority := 2,
          isHealthy := true, lastHealthCheck := 0 } ]
    currentEndpointIndex := 0 }

/-! ## Helper lemmas -/

theorem mapGet_mapDelete (m : List (String × CacheEntry)) (k : String) :
    mapGet (mapDelete m k) k = none := by
  induction m with
  | nil => rfl
  | cons p rest ih =>
    by_cases h : p.1 = k
    · simp [mapDelete, List.filter, h] at ih ⊢
      exact ih
    · simp only [mapDelete, List.filter] at ih ⊢
      have hbk : (p.1 == k) = false := by simp [h]
      simp only [hbk, Bool.not_false, mapGet]
      rw [if_neg h]
      exact ih

theorem getCachedDeployment_hit (now : Nat) (c : CacheState) (pid : String)
    (entry : CacheEntry) (hget : mapGet c.mem pid = some entry)
    (hfresh : now - entry.lastChecked ≤ cacheValidityPeriod) :
    getCachedDeployment now c pid = (some entry, c) := by
  unfold getCachedDeployment
  rw [hget]
  simp only [if_neg (by omega : ¬ now - entry.lastChecked > cacheValidityPeriod)]

theorem getCachedDeployment_expired (now : Nat) (c : CacheState) (pid : String)
    (entry : CacheEntry) (hget : mapGet c.mem pid = some entry)
    (hexp : now - entry.lastChecked > cacheValidityPeriod) :
    getCachedDeployment now c pid =
      (none, { mem := mapDelete c.mem pid, file := some (mapDelete c.mem pid) }) := by
  unfold getCachedDeployment
  rw [hget]
  simp only [if_pos hexp, saveCache]

/-! ## Claim theorems -/

/-- **C8**: a record older than the 24-hour TTL is never returned by
`getCachedDeployment`; as a side effect of that read it is evicted from the
in-memory map and the change is persisted immediately (the persisted document
becomes the map without the record). -/
theorem c8_expired_never_returned_evicted_persisted
    (now : Nat) (c : CacheState) (pid : String) (entry : CacheEntry)
    (hget : mapGet c.mem pid = some entry)
    (hexp : now - entry.lastChecked > cacheValidityPeriod) :
    getCachedDeployment now c pid =
      (none, { mem := mapDelete c.mem pid, file := some (mapDelete c.mem pid) }) ∧
    mapGet (mapDelete c.mem pid) pid = none := by
  exact ⟨getCachedDeployment_expired now c pid entry hget hexp,
         mapGet_mapDelete c.mem pid⟩

/-- Witness for C8 at a concrete expired record. -/
theorem c8_witness :
    mapGet c8State.mem "p" = some c8Entry ∧
    (86400001 : Nat) - c8Entry.lastChecked > cacheValidityPeriod ∧
    (getCachedDeployment 86400001 c8State "p").1 = none := by
  refine ⟨by decide, by decide, ?_⟩
  have h := c8_expired_never_returned_evicted_persisted 86400001 c8State "p"
    c8Entry (by decide) (by decide)
  rw [h.1]

/-- **C9**: constructing the cache store over a backing file whose content is
unparsable (`"not json"`) raises nothing — `mkCacheService` is total and
yields the empty cache — and `getCacheStats` afterwards reports `total = 0`. -/
theorem c9_corrupt_cache_heals_to_empty
    (parse : String → Option (List (String × CacheEntry))) (now : Nat)
    (hparse : parse "not json" = none) :
    mkCacheService parse (some "not json") = { mem := [], file := none } ∧
    getCacheStats now (mkCacheService parse (some "not json")) =
      { total := 0, valid := 0, expired := 0 } := by
  have hload : loadCache parse (some "not json") = [] := by
    show (match parse "not json" with
          | some entries => entries
          | none => ([] : List (String × CacheEntry))) = []
    rw [hparse]
  constructor
  · unfold mkCacheService
    rw [hload]
  · unfold getCacheStats mkCacheService
    rw [hload]
    rfl

theorem mem_insertLe {α : Type} (le : α → α → Bool) (x a : α) :
    ∀ l : List α, a ∈ insertLe le x l ↔ a = x ∨ a ∈ l := by
  intro l
  induction l with
  | nil => simp [insertLe]
  | cons y ys ih =>
    simp only [insertLe]
    by_cases h : le y x = true
    · rw [if_pos h]
      simp [ih]
      tauto
    · rw [if_neg h]
      simp

theorem mem_foldl_insertLe {α : Type} (le : α → α → Bool) (a : α) :
    ∀ (l acc : List α),
      (a ∈ l.foldl (fun acc x => insertLe le x acc) acc ↔ a ∈ acc ∨ a ∈ l) := by
  intro l
  induction l with
  | nil => simp
  | cons x xs ih =>
    intro acc
    simp only [List.foldl_cons]
    rw [ih]
    rw [mem_insertLe]
    simp
    tauto

theorem mem_jsSort {α : Type} (le : α → α → Bool) (a : α) (l : List α) :
    a ∈ jsSort le l ↔ a ∈ l := by
  unfold jsSort
  rw [mem_foldl_insertLe]
  simp

theorem mkBackups_fresh (urls names : List String) :
    ∀ i e, e ∈ mkBackups urls names i →
      e.isHealthy = true ∧ e.lastHealthCheck = 0 := by
  induction urls with
  | nil =>
    intro i e h
    simp [mkBackups] at h
  | cons url rest ih =>
    intro i e h
    simp only [mkBackups] at h
    by_cases hb : jsTrim url = ""
    · rw [if_pos hb] at h
      exact ih (i + 1) e h
    · rw [if_neg hb] at h
      rcases List.mem_cons.mp h with he | ht
      · subst he
        exact ⟨rfl, rfl⟩
      · exact ih (i + 1) e ht

theorem updateEndpointHealth_idem (env : ProbeEnv) (now : Nat) (e : RpcEndpoint) :
    updateEndpointHealth env now (updateEndpointHealth env now e) =
      updateEndpointHealth env now e := by
  by_cases h : now - e.lastHealthCheck > healthCheckInterval
  · have h1 : updateEndpointHealth env now e =
        { e with isHealthy := checkEndpointHealth env e, lastHealthCheck := now } := by
      unfold updateEndpointHealth
      rw [if_pos h]
    rw [h1]
    unfold updateEndpointHealth
    rw [if_neg (by simp)]
  · have h1 : updateEndpointHealth env now e = e := by
      unfold updateEndpointHealth
      rw [if_neg h]
    rw [h1]
    exact h1

theorem ghcScan_all_unhealthy (env : ProbeEnv) (now : Nat) :
    ∀ l : List RpcEndpoint,
      (∀ e ∈ l, (updateEndpointHealth env now e).isHealthy = false) →
      (ghcScan env now l).1 = none := by
  intro l
  induction l with
  | nil =>
    intro _
    rfl
  | cons e rest ih =>
    intro H
    have he : (updateEndpointHealth env now e).isHealthy = false :=
      H e (List.mem_cons_self e rest)
    simp only [ghcScan, he]
    simp only [Bool.false_eq_true, if_false]
    have := ih (fun x hx => H x (List.mem_cons_of_mem e hx))
    rcases hg : ghcScan env now rest with ⟨r, rest'⟩
    rw [hg] at this
    simpa using this

theorem gnhcGo_all_unhealthy (env : ProbeEnv) (now : Nat) :
    ∀ fuel (s : RpcState),
      (∀ e ∈ s.endpoints, (updateEndpointHealth env now e).isHealthy = false) →
      (gnhcGo env now fuel s).1 = .error noHealthyEndpointsMsg := by
  intro fuel
  induction fuel with
  | zero =>
    intro s _
    rfl
  | succ n ih =>
    intro s H
    simp only [gnhcGo]
    cases hidx : s.endpoints[s.currentEndpointIndex]? with
    | none => rfl
    | some e =>
      have hunh : (updateEndpointHealth env now e).isHealthy = false :=
        H e (List.getElem?_mem hidx)
      simp only [gnhcVisit, hunh, Bool.false_eq_true, if_false]
      apply ih
      intro x hx
      rcases List.mem_or_eq_of_mem_set hx with hmem | heq
      · exact H x hmem
      · subst heq
        rw [updateEndpointHealth_idem]
        exact hunh

/-- **C10**: every endpoint is constructed with `isHealthy = true` and
`lastHealthCheck = 0`, and the 5-minute re-probe gate compares
`now - lastHealthCheck`, so at any `now` past the interval (always true of a
real epoch-millis clock) an endpoint still carrying its construction-time
timestamp is really probed and its trusted health value is the probe result —
the optimistic initial `isHealthy = true` is never acted on without a probe. -/
theorem c10_initial_health_always_probed :
    (∀ p urls names s, mkRpcService (some p) urls names = .ok s →
      ∀ e ∈ s.endpoints, e.isHealthy = true ∧ e.lastHealthCheck = 0) ∧
    (∀ (env : ProbeEnv) (now : Nat) (e : RpcEndpoint),
      e.lastHealthCheck = 0 → healthCheckInterval < now →
      updateEndpointHealth env now e =
        { e with isHealthy := checkEndpointHealth env e, lastHealthCheck := now }) := by
  constructor
  · intro p urls names s hs e he
    simp only [mkRpcService, Except.ok.injEq] at hs
    subst hs
    rw [mem_jsSort] at he
    rcases List.mem_cons.mp he with hp | hb
    · subst hp
      exact ⟨rfl, rfl⟩
    · exact mkBackups_fresh urls names 0 e hb
  · intro env now e h0 hn
    unfold updateEndpointHealth
    rw [if_pos (by rw [h0]; simpa using hn)]

/-- Witness for C10: the construction from a concrete configuration, and a
real probe at `now = 1000000` on a freshly constructed endpoint. -/
theorem c10_witness :
    mkRpcService (some "main") ["backup"] [] = .ok c10State ∧
    (∀ e ∈ c10State.endpoints, e.isHealthy = true ∧ e.lastHealthCheck = 0) ∧
    c10Ep.lastHealthCheck = 0 ∧ healthCheckInterval < 1000000 ∧
    updateEndpointHealth c10Env 1000000 c10Ep =
      { c10Ep with isHealthy := checkEndpointHealth c10Env c10Ep,
                   lastHealthCheck := 1000000 } := by
  refine ⟨rfl, ?_, rfl, by decide, ?_⟩
  · exact fun e he =>
      c10_initial_health_always_probed.1 "main" ["backup"] [] c10State rfl e he
  · exact c10_initial_health_always_probed.2 c10Env 1000000 c10Ep rfl (by decide)

/-- **C2**: when no endpoint is healthy once probed (every endpoint's health
update comes out unhealthy), both selection policies fail with the one fixed
"all endpoints unhealthy" message `'No healthy RPC endpoints available'`,
which is distinct from every other error message the system produces, so
callers can recognize the exhaustion case. -/
theorem c2_all_unhealthy_distinguishable_error
    (env : ProbeEnv) (now : Nat) (s : RpcState)
    (H : ∀ e ∈ s.endpoints, (updateEndpointHealth env now e).isHealthy = false) :
    (getHealthyConnection env now s).1 = .error noHealthyEndpointsMsg ∧
    (getNextHealthyConnection env now s).1 = .error noHealthyEndpointsMsg ∧
    noHealthyEndpointsMsg ≠ accountNotFoundMsg ∧
    noHealthyEndpointsMsg ≠ notAProgramAccountMsg ∧
    noHealthyEndpointsMsg ≠ deploymentNotFoundMsg ∧
    noHealthyEndpointsMsg ≠ genericFailureMsg ∧
    noHealthyEndpointsMsg ≠ missingPrimaryMsg := by
  refine ⟨?_, ?_, by decide, by decide, by decide, by decide, by decide⟩
  · have hs := ghcScan_all_unhealthy env now s.endpoints H
    unfold getHealthyConnection
    rcases hg : ghcScan env now s.endpoints with ⟨r, eps⟩
    rw [hg] at hs
    simp only at hs
    subst hs
    rfl
  · exact gnhcGo_all_unhealthy env now s.endpoints.length s H

/-- Witness for C2: two fresh endpoints whose probes all throw. -/
theorem c2_witness :
    (∀ e ∈ c2State.endpoints,
      (updateEndpointHealth c2Env 1000000 e).isHealthy = false) ∧
    (getHealthyConnection c2Env 1000000 c2State).1 = .error noHealthyEndpointsMsg ∧
    (getNextHealthyConnection c2Env 1000000 c2State).1 = .error noHealthyEndpointsMsg := by
  refine ⟨by decide, ?_, ?_⟩
  · exact (c2_all_unhealthy_distinguishable_error c2Env 1000000 c2State (by decide)).1
  · exact (c2_all_unhealthy_distinguishable_error c2Env 1000000 c2State (by decide)).2.1

theorem updateEndpointHealth_recent (env : ProbeEnv) (now : Nat) (e : RpcEndpoint) :
    now - (updateEndpointHealth env now e).lastHealthCheck ≤ healthCheckInterval := by
  unfold updateEndpointHealth
  by_cases h : now - e.lastHealthCheck > healthCheckInterval
  · rw [if_pos h]
    simp
  · rw [if_neg h]
    omega

theorem updateEndpointHealth_closed (env : ProbeEnv) (now : Nat) (e : RpcEndpoint)
    (h : now - e.lastHealthCheck ≤ healthCheckInterval) :
    updateEndpointHealth env now e = e := by
  unfold updateEndpointHealth
  rw [if_neg (by omega)]

theorem list_set_self {α : Type} :
    ∀ (l : List α) (i : Nat) (a : α), l[i]? = some a → l.set i a = l := by
  intro l
  induction l with
  | nil =>
    intro i a h
    simp at h
  | cons x xs ih =>
    intro i a h
    cases i with
    | zero =>
      simp at h
      simp [h]
    | succ n =>
      simp at h
      simp [ih n a h]

theorem gnhcGo_ok_cursor (env : ProbeEnv) (now : Nat) :
    ∀ (fuel : Nat) (s : RpcState) (url : String) (s' : RpcState),
      gnhcGo env now fuel s = (.ok url, s') →
      ∃ e, s'.endpoints[s'.currentEndpointIndex]? = some e ∧
        e.isHealthy = true ∧ e.url = url ∧
        now - e.lastHealthCheck ≤ healthCheckInterval := by
  intro fuel
  induction fuel with
  | zero =>
    intro s url s' h
    simp [gnhcGo] at h
  | succ n ih =>
    intro s url s' h
    simp only [gnhcGo] at h
    cases hidx : s.endpoints[s.currentEndpointIndex]? with
    | none =>
      rw [hidx] at h
      simp [gnhcVisit] at h
    | some e =>
      rw [hidx] at h
      simp only [gnhcVisit] at h
      by_cases hh : (updateEndpointHealth env now e).isHealthy = true
      · rw [if_pos hh] at h
        injection h with h1 h2
        injection h1 with h3
        refine ⟨updateEndpointHealth env now e, ?_, hh, h3,
          updateEndpointHealth_recent env now e⟩
        rw [← h2]
        simp only
        have hlt : s.currentEndpointIndex < s.endpoints.length :=
          (List.getElem?_eq_some.mp hidx).1
        exact List.getElem?_set_self (by simpa using hlt)
      · rw [if_neg hh] at h
        exact ih _ url s' h

/-- **C1 (amended)**: `getNextHealthyConnection` leaves the cursor at the
endpoint it returns (the cursor advances only past unhealthy endpoints), so
an immediately repeated call returns the same endpoint and the same state —
consecutive calls do not rotate while the current endpoint stays healthy,
even when every other endpoint is healthy too. -/
theorem c1_cursor_stays_so_same_endpoint_again
    (env : ProbeEnv) (now : Nat) (s : RpcState) (url : String) (s' : RpcState)
    (h : getNextHealthyConnection env now s = (.ok url, s')) :
    getNextHealthyConnection env now s' = (.ok url, s') := by
  obtain ⟨e, hidx, hhealthy, hurl, hrecent⟩ :=
    gnhcGo_ok_cursor env now s.endpoints.length s url s' h
  have hlt : s'.currentEndpointIndex < s'.endpoints.length :=
    (List.getElem?_eq_some.mp hidx).1
  obtain ⟨n, hn⟩ : ∃ n, s'.endpoints.length = n + 1 :=
    ⟨s'.endpoints.length - 1, by omega⟩
  unfold getNextHealthyConnection
  rw [hn]
  simp only [gnhcGo]
  rw [hidx]
  simp only [gnhcVisit]
  rw [updateEndpointHealth_closed env now e hrecent, if_pos hhealthy,
    list_set_self s'.endpoints s'.currentEndpointIndex e hidx, hurl]

/-- Counterexample to **C1** as stated: with the primary and one backup both
healthy, two consecutive calls to `getNextHealthyConnection` both return the
primary ("main") — the same endpoint twice in a row, no rotation. -/
theorem c1_counterexample :
    (getNextHealthyConnection c1Env 1000000 c1State).1 = .ok "main" ∧
    (getNextHealthyConnection c1Env 1000000
        (getNextHealthyConnection c1Env 1000000 c1State).2).1 = .ok "main" ∧
    (∀ e ∈ (getNextHealthyConnection c1Env 1000000 c1State).2.endpoints,
      e.isHealthy = true) ∧
    (getNextHealthyConnection c1Env 1000000 c1State).2.endpoints.length = 2 :=
  ⟨rfl, rfl, by decide, rfl⟩

/-- Witness for the amended C1: the second call at the concrete two-endpoint
state returns the primary again, via the amended theorem. -/
theorem c1_witness :
    getNextHealthyConnection c1Env 1000000 c1State = (.ok "main", c1After) ∧
    getNextHealthyConnection c1Env 1000000 c1After = (.ok "main", c1After) :=
  ⟨rfl, c1_cursor_stays_so_same_endpoint_again c1Env 1000000 c1State "main"
    c1After rfl⟩

/-- **C6**: for a programId in the fixed native-program set,
`getDeploymentInfo` returns the native sentinel (`null`, i.e. `.ok none`)
with the RPC and cache states returned untouched, for every environment and
every starting state — the result is independent of the chain environment and
of the cache, so the call performs zero network operations and zero cache
operations. -/
theorem c6_native_sentinel_no_network_no_cache
    (env : ChainEnv) (now : Nat) (programId : String)
    (r : RpcState) (c : CacheState)
    (h : isNativeProgram programId = true) :
    getDeploymentInfo env now programId r c =
      { result := .ok none, rpc := r, cache := c, attemptErrors := [] } := by
  unfold getDeploymentInfo
  rw [if_pos h]

/-- Witness for C6 at the system program id, under an environment in which
every remote call throws (so any network access would surface). -/
theorem c6_witness :
    isNativeProgram "11111111111111111111111111111111" = true ∧
    getDeploymentInfo c6Env 5 "11111111111111111111111111111111" c6Rpc c8State =
      { result := .ok none, rpc := c6Rpc, cache := c8State, attemptErrors := [] } :=
  ⟨by decide,
   c6_native_sentinel_no_network_no_cache c6Env 5
     "11111111111111111111111111111111" c6Rpc c8State (by decide)⟩

/-- **C7**: for a non-native programId with a cached, non-expired record,
`getDeploymentInfo` returns the cached record translated to the public result
shape (signature, slot, timestamp, programDataAccount), with the RPC state
returned untouched and the result independent of the chain environment — the
call performs zero network operations. -/
theorem c7_cache_hit_no_network
    (env : ChainEnv) (now : Nat) (programId : String)
    (r : RpcState) (c : CacheState) (entry : CacheEntry)
    (hnat : isNativeProgram programId = false)
    (hget : mapGet c.mem programId = some entry)
    (hfresh : now - entry.lastChecked ≤ cacheValidityPeriod) :
    getDeploymentInfo env now programId r c =
      { result := .ok (some (translateEntry entry)), rpc := r, cache := c,
        attemptErrors := [] } := by
  unfold getDeploymentInfo
  rw [if_neg (by simp [hnat])]
  rw [getCachedDeployment_hit now c programId entry hget hfresh]
  simp only [detectAfterCache]

/-- Witness for C7: a concrete fresh cache entry, under an environment in
which every remote call throws. -/
theorem c7_witness :
    isNativeProgram "Prog7" = false ∧
    mapGet c7Cache.mem "Prog7" = some c7Entry ∧
    (1000 : Nat) - c7Entry.lastChecked ≤ cacheValidityPeriod ∧
    getDeploymentInfo c6Env 1000 "Prog7" c6Rpc c7Cache =
      { result := .ok (some (translateEntry c7Entry)), rpc := c6Rpc,
        cache := c7Cache, attemptErrors := [] } :=
  ⟨by decide, by decide, by decide,
   c7_cache_hit_no_network c6Env 1000 "Prog7" c6Rpc c7Cache c7Entry
     (by decide) (by decide) (by decide)⟩

/-- Counterexample to **C3** as stated: an empty signature list and a fully
scanned non-empty history with no match produce the very same error
`'Could not find deployment transaction'` — the empty-history failure is not
a distinguishable error kind. -/
theorem c3_counterexample :
    (getDeploymentInfo c3EnvEmpty 1000000 "Prog3" c3Rpc c3Cache).result =
      .error deploymentNotFoundMsg ∧
    (getDeploymentInfo c3EnvNoMatch 1000000 "Prog3" c3Rpc c3Cache).result =
      .error deploymentNotFoundMsg :=
  ⟨rfl, rfl⟩

/-- **C3 (amended)**: when the target account's fetched signature list is
empty, `findDeploymentTransaction` returns `null` and the attempt fails with
`'Could not find deployment transaction'` — the same single error kind that a
full scan of a non-empty history with no match produces; the two conditions
are not distinguishable to the caller. -/
theorem c3_empty_history_same_error_as_no_match :
    (∀ (env : ChainEnv) (conn target pid : String),
      env.getSignaturesForAddress conn target = .ok [] →
      findDeploymentTransaction env conn target pid = none) ∧
    (∀ (env : ChainEnv) (now : Nat) (pid : String) (r r' : RpcState)
        (c : CacheState) (conn : String) (acct : ParsedAccount),
      getNextHealthyConnection (ChainEnv.probe env) now r = (.ok conn, r') →
      env.getParsedAccountInfo conn pid = .ok (some acct) →
      isProgramAccount acct.owner = true →
      findDeploymentTransaction env conn (resolveTarget pid acct.programData) pid
        = none →
      attemptOnce env now pid r c = (.error deploymentNotFoundMsg, r', c)) := by
  constructor
  · intro env conn target pid h
    unfold findDeploymentTransaction
    rw [h]
    simp [findFromSignatures]
  · intro env now pid r r' c conn acct hacq hacct hown hfind
    unfold attemptOnce
    rw [hacq]
    simp only [attemptAcquired]
    rw [hacct]
    simp only [attemptAccount, hown, Bool.not_true, Bool.false_eq_true, if_false]
    rw [hfind]
    simp only [attemptHistory]

/-- Witness for the amended C3: the empty-history chain and the no-match
chain, both ending in the same error. -/
theorem c3_witness :
    c3EnvEmpty.getSignaturesForAddress "main" "Prog3" = .ok [] ∧
    findDeploymentTransaction c3EnvEmpty "main" "Prog3" "Prog3" = none ∧
    attemptOnce c3EnvNoMatch 1000000 "Prog3" c3Rpc c3Cache =
      (.error deploymentNotFoundMsg, c3RpcAfter, c3Cache) := by
  refine ⟨rfl, ?_, ?_⟩
  · exact c3_empty_history_same_error_as_no_match.1 c3EnvEmpty "main" "Prog3"
      "Prog3" rfl
  · exact c3_empty_history_same_error_as_no_match.2 c3EnvNoMatch 1000000 "Prog3"
      c3Rpc c3RpcAfter c3Cache "main" c3Acct rfl rfl (by decide) rfl

/-- **C4**: the history scan sorts signatures ascending by slot (slots
`[5,2,9]` are reordered to `[2,5,9]`), walks oldest to newest skipping
transactions that are absent or lack log output, returns the first
transaction whose logs match the deployment heuristic with its signature,
slot and block time — and in the claim's scenario (logs `[["unrelated"],
["Deployed program X"]]` in slot order) returns the second transaction's
signature and slot, never the first. -/
theorem c4_scan_sorted_skip_first_match :
    sortSignatures
        [ { signature := "a", slot := 5, blockTime := none }
        , { signature := "b", slot := 2, blockTime := none }
        , { signature := "c", slot := 9, blockTime := none } ] =
      [ { signature := "b", slot := 2, blockTime := none }
      , { signature := "a", slot := 5, blockTime := none }
      , { signature := "c", slot := 9, blockTime := none } ] ∧
    (∀ (env : ChainEnv) (conn pid : String) (sig : SigInfo) (rest : List SigInfo),
      env.getParsedTransaction conn sig.signature = .ok none →
      scanSignatures env conn pid (sig :: rest) = scanSignatures env conn pid rest) ∧
    (∀ (env : ChainEnv) (conn pid : String) (sig : SigInfo) (rest : List SigInfo)
        (tx : TxInfo),
      env.getParsedTransaction conn sig.signature = .ok (some tx) →
      tx.logMessages = none →
      scanSignatures env conn pid (sig :: rest) = scanSignatures env conn pid rest) ∧
    (∀ (env : ChainEnv) (conn pid : String) (sig : SigInfo) (rest : List SigInfo)
        (logs : List String),
      env.getParsedTransaction conn sig.signature = .ok (some { logMessages := some logs }) →
      logs.any (logIsDeployment pid) = true →
      scanSignatures env conn pid (sig :: rest) =
        .ok (some { signature := sig.signature, slot := sig.slot,
                    timestamp := sig.blockTime.getD 0 })) ∧
    findDeploymentTransaction c4Env "main" "Prog4" "Prog4" =
      some { signature := "sig2", slot := 20, timestamp := 222 } ∧
    ("sig2" : String) ≠ "sig1" := by
  refine ⟨rfl, ?_, ?_, ?_, rfl, by decide⟩
  · intro env conn pid sig rest h
    simp only [scanSignatures]
    rw [h]
    simp only [scanVisit]
  · intro env conn pid sig rest tx h hlog
    simp only [scanSignatures]
    rw [h]
    simp only [scanVisit]
    rw [hlog]
    simp only [scanLogs]
  · intro env conn pid sig rest logs h hany
    simp only [scanSignatures]
    rw [h]
    simp only [scanVisit, scanLogs, hany, if_true]

/-- Witness for C4: the skip cases and the first-match case at concrete
chains. -/
theorem c4_witness :
    c4EnvSkip.getParsedTransaction "main" "s0" = .ok none ∧
    scanSignatures c4EnvSkip "main" "Prog4" [c4Sig] =
      scanSignatures c4EnvSkip "main" "Prog4" [] ∧
    c4EnvNoLogs.getParsedTransaction "main" "s0" =
      .ok (some { logMessages := none }) ∧
    scanSignatures c4EnvNoLogs "main" "Prog4" [c4Sig] =
      scanSignatures c4EnvNoLogs "main" "Prog4" [] ∧
    ["Deployed program X"].any (logIsDeployment "Prog4") = true ∧
    scanSignatures c4Env "main" "Prog4" [c4Sig2] =
      .ok (some { signature := "sig2", slot := 20, timestamp := 222 }) := by
  refine ⟨rfl, ?_, rfl, ?_, by decide, ?_⟩
  · exact c4_scan_sorted_skip_first_match.2.1 c4EnvSkip "main" "Prog4" c4Sig [] rfl
  · exact c4_scan_sorted_skip_first_match.2.2.1 c4EnvNoLogs "main" "Prog4" c4Sig
      [] { logMessages := none } rfl rfl
  · exact c4_scan_sorted_skip_first_match.2.2.2.1 c4Env "main" "Prog4" c4Sig2 []
      ["Deployed program X"] rfl (by decide)

theorem attemptLoop_errors_le (env : ChainEnv) (now : Nat) (pid : String) :
    ∀ (fuel : Nat) (last : Option String) (r : RpcState) (c : CacheState),
      (attemptLoop env now pid fuel last r c).attemptErrors.length ≤ fuel := by
  intro fuel
  induction fuel with
  | zero =>
    intro last r c
    simp [attemptLoop]
  | succ n ih =>
    intro last r c
    have base : attemptLoop env now pid (n + 1) last r c =
        attemptStep (fun e r' c' => attemptLoop env now pid n (some e) r' c')
          (attemptOnce env now pid r c) := rfl
    rw [base]
    rcases h : attemptOnce env now pid r c with ⟨res, r', c'⟩
    cases res with
    | ok v => simp [attemptStep]
    | error e =>
      simp only [attemptStep, List.length_cons]
      exact Nat.succ_le_succ (ih (some e) r' c')

/-- **C5**: on a cache miss `getDeploymentInfo` runs the retry loop with a
budget of exactly 3 attempts; each failed attempt's error is captured and the
loop retried on the attempt's output states (so the next attempt re-acquires
a connection and redoes the whole pipeline) only while attempts remain; a
successful attempt returns immediately; when the budget is exhausted the last
captured error is surfaced; at most 3 errors are ever captured; and
"not a program account" is captured like any other failure, consuming an
attempt. -/
theorem c5_three_attempts_last_error_surfaced :
    (∀ (env : ChainEnv) (now : Nat) (pid : String) (r : RpcState)
        (c c₀ : CacheState),
      isNativeProgram pid = false →
      getCachedDeployment now c pid = (none, c₀) →
      getDeploymentInfo env now pid r c = attemptLoop env now pid maxAttempts none r c₀) ∧
    maxAttempts = 3 ∧
    (∀ (env : ChainEnv) (now : Nat) (pid : String) (fuel : Nat)
        (last : Option String) (r r₁ : RpcState) (c c₁ : CacheState) (e : String),
      attemptOnce env now pid r c = (.error e, r₁, c₁) →
      attemptLoop env now pid (fuel + 1) last r c =
        { attemptLoop env now pid fuel (some e) r₁ c₁ with
            attemptErrors :=
              e :: (attemptLoop env now pid fuel (some e) r₁ c₁).attemptErrors }) ∧
    (∀ (env : ChainEnv) (now : Nat) (pid : String) (fuel : Nat)
        (last : Option String) (r r₁ : RpcState) (c c₁ : CacheState)
        (v : DeploymentInfo),
      attemptOnce env now pid r c = (.ok v, r₁, c₁) →
      attemptLoop env now pid (fuel + 1) last r c =
        { result := .ok (some v), rpc := r₁, cache := c₁, attemptErrors := [] }) ∧
    (∀ (env : ChainEnv) (now : Nat) (pid : String) (last : Option String)
        (r : RpcState) (c : CacheState),
      attemptLoop env now pid 0 last r c =
        { result := .error (last.getD genericFailureMsg), rpc := r, cache := c,
          attemptErrors := [] }) ∧
    (∀ (env : ChainEnv) (now : Nat) (pid : String) (r : RpcState) (c : CacheState),
      (getDeploymentInfo env now pid r c).attemptErrors.length ≤ maxAttempts) ∧
    (∀ (env : ChainEnv) (now : Nat) (pid : String) (r r' : RpcState)
        (c : CacheState) (conn : String) (acct : ParsedAccount),
      getNextHealthyConnection (ChainEnv.probe env) now r = (.ok conn, r') →
      env.getParsedAccountInfo conn pid = .ok (some acct) →
      isProgramAccount acct.owner = false →
      attemptOnce env now pid r c = (.error notAProgramAccountMsg, r', c)) := by
  refine ⟨?_, rfl, ?_, ?_, ?_, ?_, ?_⟩
  · intro env now pid r c c₀ hnat hcache
    unfold getDeploymentInfo
    rw [if_neg (by simp [hnat]), hcache]
    simp only [detectAfterCache]
  · intro env now pid fuel last r r₁ c c₁ e h
    have base : attemptLoop env now pid (fuel + 1) last r c =
        attemptStep (fun e r' c' => attemptLoop env now pid fuel (some e) r' c')
          (attemptOnce env now pid r c) := rfl
    rw [base, h]
    simp only [attemptStep]
  · intro env now pid fuel last r r₁ c c₁ v h
    have base : attemptLoop env now pid (fuel + 1) last r c =
        attemptStep (fun e r' c' => attemptLoop env now pid fuel (some e) r' c')
          (attemptOnce env now pid r c) := rfl
    rw [base, h]
    simp only [attemptStep]
  · intro env now pid last r c
    rfl
  · intro env now pid r c
    unfold getDeploymentInfo
    by_cases hn : isNativeProgram pid = true
    · rw [if_pos hn]
      simp [maxAttempts]
    · rw [if_neg hn]
      rcases hc : getCachedDeployment now c pid with ⟨o, c'⟩
      cases o with
      | some cached => simp [detectAfterCache, maxAttempts]
      | none =>
        simp only [detectAfterCache]
        exact attemptLoop_errors_le env now pid maxAttempts none r c'
  · intro env now pid r r' c conn acct hacq hacct hown
    unfold attemptOnce
    rw [hacq]
    simp only [attemptAcquired]
    rw [hacct]
    simp only [attemptAccount, hown, Bool.not_false, if_true]

/-- Witness for C5: on `c5Env` every attempt fails with "not a program
account" and the loop recurs, consuming the attempt; on `c5EnvOk` the first
attempt succeeds and the loop stops at once. -/
theorem c5_witness :
    isNativeProgram "Prog5" = false ∧
    getCachedDeployment 1000000 c5Cache "Prog5" = (none, c5Cache) ∧
    getDeploymentInfo c5Env 1000000 "Prog5" c5Rpc c5Cache =
      attemptLoop c5Env 1000000 "Prog5" maxAttempts none c5Rpc c5Cache ∧
    attemptOnce c5Env 1000000 "Prog5" c5Rpc c5Cache =
      (.error notAProgramAccountMsg, c5RpcAfter, c5Cache) ∧
    attemptLoop c5Env 1000000 "Prog5" 3 none c5Rpc c5Cache =
      { attemptLoop c5Env 1000000 "Prog5" 2 (some notAProgramAccountMsg)
          c5RpcAfter c5Cache with
          attemptErrors := notAProgramAccountMsg ::
            (attemptLoop c5Env 1000000 "Prog5" 2 (some notAProgramAccountMsg)
              c5RpcAfter c5Cache).attemptErrors } ∧
    attemptOnce c5EnvOk 1000000 "Prog5" c5Rpc c5Cache =
      (.ok c5Info, c5RpcAfter, c5CacheAfter) ∧
    attemptLoop c5EnvOk 1000000 "Prog5" 3 none c5Rpc c5Cache =
      { result := .ok (some c5Info), rpc := c5RpcAfter, cache := c5CacheAfter,
        attemptErrors := [] } ∧
    attemptLoop c5Env 1000000 "Prog5" 0 (some notAProgramAccountMsg) c5Rpc c5Cache =
      { result := .error notAProgramAccountMsg, rpc := c5Rpc, cache := c5Cache,
        attemptErrors := [] } := by
  refine ⟨by decide, rfl, ?_, ?_, ?_, ?_, ?_, ?_⟩
  · exact c5_three_attempts_last_error_surfaced.1 c5Env 1000000 "Prog5" c5Rpc
      c5Cache c5Cache (by decide) rfl
  · exact c5_three_attempts_last_error_surfaced.2.2.2.2.2.2 c5Env 1000000
      "Prog5" c5Rpc c5RpcAfter c5Cache "main" c5AcctBad rfl rfl (by decide)
  · exact c5_three_attempts_last_error_surfaced.2.2.1 c5Env 1000000 "Prog5" 2
      none c5Rpc c5RpcAfter c5Cache c5Cache notAProgramAccountMsg
      (c5_three_attempts_last_error_surfaced.2.2.2.2.2.2 c5Env 1000000 "Prog5"
        c5Rpc c5RpcAfter c5Cache "main" c5AcctBad rfl rfl (by decide))
  · rfl
  · exact c5_three_attempts_last_error_surfaced.2.2.2.1 c5EnvOk 1000000 "Prog5"
      2 none c5Rpc c5RpcAfter c5Cache c5CacheAfter c5Info rfl
  · exact c5_three_attempts_last_error_surfaced.2.2.2.2.1 c5Env 1000000 "Prog5"
      (some notAProgramAccountMsg) c5Rpc c5Cache

/-- Witness for C9 with a parse function rejecting `"not json"`. -/
theorem c9_witness :
    (fun _ : String => (none : Option (List (String × CacheEntry)))) "not json" = none ∧
    getCacheStats 0 (mkCacheService
        (fun _ : String => (none : Option (List (String × CacheEntry))))
        (some "not json")) = { total := 0, valid := 0, expired := 0 } :=
  ⟨rfl, (c9_corrupt_cache_heals_to_empty
    (fun _ => none) 0 rfl).2⟩

end SolanaCLI
